import Mathlib

/-!
Shallow embedding of the Vex-Cogs sources under verification:

* `src/ghissues/vexutils/meta.py` — the version/update-check utility
  (`format_info`, `out_of_date_check`, `_get_latest_vers`, `_get_current_vers`,
  and the `Vers` / `UnknownVers` records).
* `src/status/commands/status_com.py` — the `status` chat command
  (cooldown gate, channel-restriction gate, HTTP fetch, incident selection,
  dispatch and summary messages).

External collaborators (the Red framework `VersionInfo` parser and version
ordering, the chat-formatting helpers, the glyph constants from `consts.py`,
the cooldown tracker, restriction cache and status-page HTTP client) are
modelled as explicit inputs or small definitions, each marked in its doc
comment.  I/O is made explicit: file reads and network fetches become
`Except Unit` inputs, Discord side effects become an `Effect` trace.
-/

/-- Modelled from the spec: `GREEN_CIRCLE` from `consts.py` (not under `src/`),
the fixed "green" status glyph. -/
def GREEN_CIRCLE : String := "🟢"

/-- Modelled from the spec: `RED_CIRCLE` from `consts.py` (not under `src/`),
the fixed "red" status glyph. -/
def RED_CIRCLE : String := "🔴"

/-- Modelled from the spec: the Red framework `VersionInfo` value
(`major.minor.micro`); the spec stipulates standard semantic-version
ordering for comparisons. -/
structure VersionInfo where
  major : Nat
  minor : Nat
  micro : Nat
deriving DecidableEq, Repr

/-- Modelled from the spec: semantic-version `<=` (lexicographic on
major, minor, micro), the ordering used by `>=` comparisons in the source. -/
def VersionInfo.le (a b : VersionInfo) : Bool :=
  if a.major ≠ b.major then decide (a.major < b.major)
  else if a.minor ≠ b.minor then decide (a.minor < b.minor)
  else decide (a.micro ≤ b.micro)

/-- Modelled from the spec: semantic-version strict `<`. -/
def VersionInfo.lt (a b : VersionInfo) : Bool :=
  if a.major ≠ b.major then decide (a.major < b.major)
  else if a.minor ≠ b.minor then decide (a.minor < b.minor)
  else decide (a.micro < b.micro)

/-- A decimal digit character, as its value. -/
def digit? (c : Char) : Option Nat :=
  if c.isDigit then some (c.toNat - 48) else none

/-- A non-empty all-digit character group, as a number. -/
def parse_nat_chars (cs : List Char) : Option Nat :=
  match cs with
  | [] => none
  | _ =>
    cs.foldl
      (fun acc c =>
        match acc, digit? c with
        | some n, some d => some (n * 10 + d)
        | _, _ => none)
      (some 0)

/-- Splitting a character list on the dot separator (Python `str.split`). -/
def split_dots : List Char → List (List Char)
  | [] => [[]]
  | c :: rest =>
    if c = '.' then [] :: split_dots rest
    else
      match split_dots rest with
      | g :: gs => (c :: g) :: gs
      | [] => [[c]]

/-- Modelled from the spec: `VersionInfo.from_str`, the external framework
parser for version strings; it fails (raises) on strings that are not a
dotted numeric version. -/
def VersionInfo.from_str (s : String) : Option VersionInfo :=
  match (split_dots s.toList).map parse_nat_chars with
  | [some a, some b, some c] => some (VersionInfo.mk a b c)
  | _ => none

/-- Python `str.lower()` (character-wise lowercasing). -/
def str_lower (s : String) : String :=
  String.mk (s.data.map Char.toLower)

/-- Decidable equality for raised-or-returned results. -/
instance {ε α : Type} [DecidableEq ε] [DecidableEq α] :
    DecidableEq (Except ε α) := fun a b =>
  match a, b with
  | .error e, .error f =>
    if h : e = f then .isTrue (by rw [h]) else .isFalse (by simp [h])
  | .ok x, .ok y =>
    if h : x = y then .isTrue (by rw [h]) else .isFalse (by simp [h])
  | .error _, .ok _ => .isFalse (by simp)
  | .ok _, .error _ => .isFalse (by simp)

/-- `class Vers(NamedTuple)` from `meta.py`: per-cog versions (a dict,
modelled as an association list), the bundled-utils commit identifier, and
the Red (host framework) version. -/
structure Vers where
  cogs : List (String × VersionInfo)
  utils : String
  red : VersionInfo
deriving DecidableEq, Repr

/-- A Python value of type `Union[str, bool]`, as used for the
`cog_updated` / `utils_updated` / `red_updated` variables (booleans on the
success path, the string sentinel `"Unknown"` on the failure path) and for
`extras` values. -/
inductive PyVal where
  | pybool (b : Bool)
  | pystr (s : String)
deriving DecidableEq, Repr

/-- Python truthiness of a `Union[str, bool]` value: a bool is itself, a
string is truthy iff non-empty.  In particular `"Unknown"` is truthy. -/
def py_truthy : PyVal → Bool
  | .pybool b => b
  | .pystr s => s ≠ ""

/-- `GREEN_CIRCLE if x else RED_CIRCLE` from the `versions` table rows of
`format_info` (lines 99, 105, 111 of `meta.py`). -/
def up_indicator (v : PyVal) : String :=
  if py_truthy v then GREEN_CIRCLE else RED_CIRCLE

/-- Rendering of a `VersionInfo` cell by the table formatter (`str`). -/
def show_ver (v : VersionInfo) : String :=
  toString v.major ++ "." ++ toString v.minor ++ "." ++ toString v.micro

/-- Rendering of an `Optional[VersionInfo]` cell (`dict.get` result). -/
def show_ver_opt : Option VersionInfo → String
  | some v => show_ver v
  | none => ""

/-- Log severities used by `meta.py`. -/
inductive LogLevel where
  | warning
  | debug
deriving DecidableEq, Repr

/-- `_get_current_vers(curr_cog_ver, qual_name)` from `meta.py` lines
201-210.  The read of the local sidecar `commit.json` is made explicit:
`sidecar` is `.error ()` when the file is missing or malformed, and
`.ok field` when it is a valid JSON object, with `field` the optional
`"latest_commit"` entry.  `cur_red_version` is the imported
`redbot.core.version_info` global.  The result is `.error ()` when the
Python function raises (unreadable sidecar, or a current-version string
rejected by `VersionInfo.from_str`). -/
def _get_current_vers (sidecar : Except Unit (Option String))
    (cur_red_version : VersionInfo) (curr_cog_ver : String) (qual_name : String) :
    Except Unit Vers :=
  match sidecar with
  | .error e => .error e
  | .ok field =>
    let latest_utils := (field.getD "Unknown").take 7
    match VersionInfo.from_str curr_cog_ver with
    | none => .error ()
    | some v => .ok (Vers.mk [(str_lower qual_name, v)] latest_utils cur_red_version)

/-- `_get_latest_vers()` from `meta.py` lines 182-198, with the two HTTP
responses made explicit: `vers_api` is the decoded JSON object from the
first-party versions API (an association list of top-level keys), and
`pypi_info_version` is the decoded `info.version` field of the PyPI
response (`none` when absent, defaulted to `"0.0.0"` as in the source).
The result is `.error ()` when the Python function raises (missing
`"utils"` key or any version string rejected by the parser); network
failures are modelled by the caller not reaching this computation. -/
def _get_latest_vers (vers_api : List (String × String))
    (pypi_info_version : Option String) : Except Unit Vers :=
  match List.lookup "utils" vers_api with
  | none => .error ()
  | some u =>
    let latest_utils := u.take 7
    let latest_cogs := vers_api.filter (fun kv => kv.1 ≠ "utils")
    match latest_cogs.mapM (fun kv => (VersionInfo.from_str kv.2).map (fun v => (kv.1, v))),
        VersionInfo.from_str (pypi_info_version.getD "0.0.0") with
    | some obj_latest_cogs, some latest_red =>
      .ok (Vers.mk obj_latest_cogs latest_utils latest_red)
    | _, _ => .error ()

/-- The three comparisons of `format_info` lines 85-87:
`cog_updated = current.cogs[cog_name] >= latest.cogs[cog_name]`,
`utils_updated = current.utils == latest.utils`,
`red_updated = current.red >= latest.red`.
`none` models a `KeyError` from either dict subscription (which the
enclosing `try` turns into the Unknown path). -/
def reconcile (current latest : Vers) (cog_name : String) :
    Option (Bool × Bool × Bool) :=
  match List.lookup cog_name current.cogs, List.lookup cog_name latest.cogs with
  | some cv, some lv =>
    some (VersionInfo.le lv cv, current.utils == latest.utils,
      VersionInfo.le latest.red current.red)
  | _, _ => none

/-- One row of the `versions` comparison table of `format_info`
(lines 94-113): label, the "Your Version" cell, the "Latest version" cell
and the "Up to date?" indicator cell. -/
structure InfoRow where
  label : String
  current : String
  latest : String
  indicator : String
deriving DecidableEq, Repr

/-- The information content of the string returned by `format_info`
(the `tabulate`/`box` rendering of these parts is external): the header,
the three-row comparison table, the `update_msg` block, the second
(loops + extras) table, and the log lines emitted. -/
structure FormatResult where
  header : String
  rows : List InfoRow
  updateMsg : String
  dataRows : List (List String)
  logs : List (LogLevel × String)
deriving DecidableEq, Repr

/-- The row/`update_msg`/`data` construction of `format_info` lines
93-145, shared by the success and the exception branch: the three
`versions` rows (with the latest-side cells and the three
`Union[bool, str]` updated-flags supplied by the caller per branch), the
`update_msg` block appended only for falsy flags, and the loops/extras
`data` rows.  Apostrophes in the source message texts are dropped. -/
def build_format_result (qualified_name clean_pfx : String) (current : Vers)
    (cog_name : String) (latest_cog_cell latest_utils_cell latest_red_cell : String)
    (cog_updated utils_updated red_updated : PyVal)
    (extras : List (String × PyVal)) (loops : List (String × Bool))
    (logs : List (LogLevel × String)) : FormatResult :=
  let rows : List InfoRow :=
    [InfoRow.mk "This Cog" (show_ver_opt (List.lookup cog_name current.cogs))
        latest_cog_cell (up_indicator cog_updated),
      InfoRow.mk "Bundled Utils" current.utils latest_utils_cell
        (up_indicator utils_updated),
      InfoRow.mk "Red" (show_ver current.red) latest_red_cell
        (up_indicator red_updated)]
  let updateMsg :=
    "\n"
    ++ (if py_truthy cog_updated then ""
        else "To update this cog, use the `" ++ clean_pfx ++ "cog update` command.\n")
    ++ (if py_truthy utils_updated then ""
        else "To update the bundled utils, use the `" ++ clean_pfx
          ++ "cog update` command.\n")
    ++ (if py_truthy red_updated then ""
        else "To update Red, see https://docs.discord.red/en/stable/update_red.html\n")
  let loopRows : List (List String) :=
    loops.map (fun l => [l.1, if l.2 then GREEN_CIRCLE else RED_CIRCLE])
  let extraRows : List (List String) :=
    if extras = [] then []
    else (if loopRows = [] then [] else [[]])
      ++ extras.map (fun kv =>
        [kv.1, match kv.2 with
          | .pybool b => if b then GREEN_CIRCLE else RED_CIRCLE
          | .pystr s => s])
  FormatResult.mk
    (qualified_name ++ " by Vexed.\n<https://github.com/Vexed01/Vex-Cogs>\n\n")
    rows updateMsg (loopRows ++ extraRows) logs

/-- `format_info` from `meta.py` lines 52-147.  The sidecar read and the
remote latest-versions fetch are explicit inputs; `fetch_latest` is
`.error ()` when `_get_latest_vers()` raises (network, timeout, JSON or
version-parse error).  Note that `_get_current_vers` runs BEFORE the
`try` block (line 81), so its failures propagate (`.error`), while any
failure of the fetch or of the dict lookups inside the `try` is replaced
by the `"Unknown"` sentinel state and a warning log (lines 88-91). -/
def format_info (sidecar : Except Unit (Option String))
    (cur_red_version : VersionInfo) (clean_pfx : String)
    (qualified_name : String) (cog_version : String)
    (fetch_latest : Except Unit Vers)
    (extras : List (String × PyVal)) (loops : List (String × Bool)) :
    Except Unit FormatResult :=
  let cog_name := str_lower qualified_name
  match _get_current_vers sidecar cur_red_version cog_version qualified_name with
  | .error e => .error e
  | .ok current =>
    let tried : Option (Vers × Bool × Bool × Bool) :=
      match fetch_latest with
      | .error _ => none
      | .ok latest =>
        match reconcile current latest cog_name with
        | some (a, b, c) => some (latest, a, b, c)
        | none => none
    match tried with
    | some (latest, cog_updated, utils_updated, red_updated) =>
      .ok (build_format_result qualified_name clean_pfx current cog_name
        (show_ver_opt (List.lookup cog_name latest.cogs)) latest.utils
        (show_ver latest.red)
        (.pybool cog_updated) (.pybool utils_updated) (.pybool red_updated)
        extras loops [])
    | none =>
      .ok (build_format_result qualified_name clean_pfx current cog_name
        "Unknown" "Unknown" "Unknown"
        (.pystr "Unknown") (.pystr "Unknown") (.pystr "Unknown")
        extras loops [(LogLevel.warning, "Unable to parse versions.")])

/-- `out_of_date_check(cogname, currentver)` from `meta.py` lines 150-167.
The lock-serialized fetch is the explicit `fetch` input.  The function
never raises: every failure path (fetch error, unparseable current
version, cog name absent from the fetched dict) lands in the `except`
branch and yields the debug-level log line; otherwise it logs a warning
iff the current version is strictly older.  The result is the single log
line emitted (level, message); apostrophes in the source text are
dropped. -/
def out_of_date_check (fetch : Except Unit Vers) (cogname currentver : String) :
    LogLevel × String :=
  match fetch with
  | .error _ =>
    (.debug, "Something went wrong checking if " ++ cogname
      ++ " cog is up to date. See below.")
  | .ok vers =>
    match VersionInfo.from_str currentver, List.lookup cogname vers.cogs with
    | some cv, some lv =>
      if VersionInfo.lt cv lv then
        (.warning, "Your " ++ cogname ++ " cog, from Vex, is out of date. "
          ++ "You can update your cogs with the cog update command in Discord.")
      else
        (.debug, cogname ++ " cog is up to date")
    | _, _ =>
      (.debug, "Something went wrong checking if " ++ cogname
        ++ " cog is up to date. See below.")

/-- Modelled from the spec: a resolved Discord channel as returned by
`bot.get_channel` — whether it is a `TextChannel`, and its mention text. -/
structure Chan where
  isTextChannel : Bool
  mention : String
deriving DecidableEq, Repr

/-- `IncidentData` (from `status.objects`, external to `src/`): one
incident or scheduled-maintenance entry — title, link, optional
scheduled-start timestamp, and the field list forwarded to the
dispatcher.  Timestamps are modelled as integers (timezone-aware
datetimes are totally ordered). -/
structure IncidentData where
  title : String
  link : String
  scheduled_for : Option Int
  fields : List String
deriving DecidableEq, Repr

/-- One observable side effect of the `status` command body, in order:
a `ctx.send` reply (with optional `delete_after`), the typing indicator,
the `statusapi.summary` network fetch, a `SendUpdate(...).send` dispatch
of the primary entry to the invoking channel, and the fixed
`asyncio.sleep(0.2)` pause. -/
inductive Effect where
  | send (msg : String) (deleteAfter : Option Nat)
  | typing
  | fetch (serviceId : String)
  | dispatch (update : IncidentData × List String) (channelId : Nat)
  | sleep
deriving DecidableEq, Repr

/-- Whether an effect is the primary dispatch. -/
def is_dispatch : Effect → Bool
  | .dispatch _ _ => true
  | _ => false

/-- Whether an effect is the status-page network fetch. -/
def is_fetch : Effect → Bool
  | .fetch _ => true
  | _ => false

/-- Number of primary dispatches in an effect trace. -/
def count_dispatch (l : List Effect) : Nat :=
  l.countP is_dispatch

/-- Modelled from the spec: the external `humanize_timedelta` helper from
the host framework chat-formatting module (e.g. 45 seconds renders as
"45 seconds"). -/
def humanize_timedelta (seconds : Nat) : String :=
  if seconds = 1 then "1 second" else toString seconds ++ " seconds"

/-- Modelled from the spec: the external `humanize_list(items, style="or")`
helper; joins the items into prose with "or" before the last, and yields
the empty string on an empty list. -/
def humanize_list : List String → String
  | [] => ""
  | [a] => a
  | [a, b] => a ++ " or " ++ b
  | a :: rest => a ++ ", " ++ humanize_list rest

/-- All inputs of one `status` command invocation, with the external
collaborators replaced by their observed answers:
`cooldown` is the `service_cooldown.handle(ctx.author.id, service.name)`
result (`none` for Python `None`); `restrictions` is the
`service_restrictions_cache.get_guild(...)` list (`[]` covers both Python
`None` and an empty list — both falsy); `getChannel` is
`bot.get_channel`; `httpStatus` is the HTTP status from
`statusapi.summary(service.id)`; `incidents` and `scheduled` are the
`process_json(summary, "incidents")` / `process_json(summary, "scheduled")`
parses of its payload; `now` is `datetime.datetime.now(timezone.utc)`;
`channelId` is `ctx.channel.id`. -/
structure StatusCtx where
  cooldown : Option Nat
  restrictions : List Nat
  getChannel : Nat → Option Chan
  friendly : String
  serviceId : String
  httpStatus : Nat
  incidents : List IncidentData
  scheduled : List IncidentData
  now : Int
  channelId : Nat

/-- Python truthiness of the cooldown tracker result (`None` and `0` are
falsy). -/
def cooldown_active : Option Nat → Bool
  | none => false
  | some t => t ≠ 0

/-- The `channel_list` computed at lines 40-44 of `status_com.py`: the
restriction channel ids resolved through `bot.get_channel`, filtered to
text channels, their mentions humanized with the "or" style. -/
def restriction_channel_list (restrictions : List Nat)
    (getChannel : Nat → Option Chan) : String :=
  humanize_list
    (((restrictions.filterMap getChannel).filter Chan.isTextChannel).map Chan.mention)

/-- Lines 59-62 of `status_com.py`: the scheduled-maintenance entries kept
for selection — `[i for i in all_scheduled if i.scheduled_for and
i.scheduled_for < now]`.  An entry with no scheduled-start is falsy and
dropped; otherwise it is kept iff its start is strictly before `now`. -/
def scheduled_live (now : Int) (all_scheduled : List IncidentData) :
    List IncidentData :=
  all_scheduled.filter (fun i => i.scheduled_for.any (fun t => decide (t < now)))

/-- The secondary summary text built at lines 93-106 of `status_com.py`:
a count plus one title+link line per remaining incident, then (with a
leading blank line) the same for remaining scheduled entries. -/
def summary_others (other_incidents other_scheduled : List IncidentData) :
    String :=
  (if other_incidents = [] then ""
    else toString other_incidents.length ++ " other incidents are live at the moment:\n"
      ++ String.join (other_incidents.map (fun i => i.title ++ " (<" ++ i.link ++ ">)\n")))
  ++ (if other_scheduled = [] then ""
    else "\n" ++ toString other_scheduled.length
      ++ " other scheduled maintenance events are live at the moment:\n"
      ++ String.join (other_scheduled.map (fun i => i.title ++ " (<" ++ i.link ++ ">)")))

/-- Lines 79-109 of `status_com.py`, the path taken once a primary entry
`to_send` was selected: build the `Update` and dispatch it to the
invoking channel, sleep, then send the summary message iff non-empty. -/
def send_update_path (channelId : Nat) (to_send : IncidentData)
    (other_incidents other_scheduled : List IncidentData) : List Effect :=
  [Effect.dispatch (to_send, to_send.fields) channelId, Effect.sleep]
    ++ (if summary_others other_incidents other_scheduled = "" then []
        else [Effect.send (summary_others other_incidents other_scheduled) none])

/-- Lines 50-109 of `status_com.py`: the command body after the cooldown
and restriction gates — typing indicator, status fetch, non-200 apology,
parse + scheduled filter, selection of at most one primary entry, and
dispatch/summary or the fixed no-live-incidents confirmation. -/
def after_gates (s : StatusCtx) : List Effect :=
  Effect.typing :: Effect.fetch s.serviceId ::
    (if s.httpStatus ≠ 200 then
      [Effect.send ("Hmm, I can\x27t get " ++ s.friendly
        ++ "\x27s status at the moment.") none]
    else
      match s.incidents with
      | to_send :: rest => send_update_path s.channelId to_send rest []
      | [] =>
        match scheduled_live s.now s.scheduled with
        | to_send :: rest => send_update_path s.channelId to_send [] rest
        | [] =>
          [Effect.send "✅ There are currently no live incidents." none])

/-- The `status` command (`status_com.py` lines 21-109) as the effect
trace of one invocation: the cooldown gate (lines 31-35), the
channel-restriction gate (lines 37-48; note the source never compares
`ctx.channel.id` against the restriction list — it stops whenever the
humanized resolvable-channel list is non-empty), then `after_gates`. -/
def status (s : StatusCtx) : List Effect :=
  if cooldown_active s.cooldown then
    [Effect.send ("Status updates for " ++ s.friendly
      ++ " are on cooldown. Try again in "
      ++ humanize_timedelta (s.cooldown.getD 0) ++ ".") s.cooldown]
  else if s.restrictions ≠ []
      ∧ restriction_channel_list s.restrictions s.getChannel ≠ "" then
    [Effect.send ("You can check updates for " ++ s.friendly ++ " in "
      ++ restriction_channel_list s.restrictions s.getChannel ++ ".") none]
  else
    after_gates s

/-! ### Concrete inputs used by witnesses and counterexamples -/

/-- A guild with a restriction list for the service that contains the
invoking channel (id 5), which resolves to a text channel. -/
def c5_ctx : StatusCtx where
  cooldown := none
  restrictions := [5]
  getChannel := fun n => if n = 5 then some (Chan.mk true "<#5>") else none
  friendly := "Discord"
  serviceId := "discord"
  httpStatus := 200
  incidents := []
  scheduled := []
  now := 0
  channelId := 5

/-- A guild whose restriction list resolves to no text channel at all, so
the humanized channel list is empty and the gate falls through. -/
def c5_pass_ctx : StatusCtx where
  cooldown := none
  restrictions := [7]
  getChannel := fun _ => none
  friendly := "GitHub"
  serviceId := "github"
  httpStatus := 404
  incidents := []
  scheduled := []
  now := 0
  channelId := 3

/-- A scheduled-maintenance entry that started before the reference time. -/
def c7w_past : IncidentData := IncidentData.mk "past" "lp" (some 5) []

/-- A scheduled-maintenance entry that starts after the reference time. -/
def c7w_future : IncidentData := IncidentData.mk "future" "lf" (some 20) []

/-- A scheduled-maintenance entry with no scheduled-start timestamp. -/
def c7w_none : IncidentData := IncidentData.mk "unscheduled" "lu" none []

/-- An invocation for which the cooldown tracker reports 45 seconds left. -/
def c8_ctx : StatusCtx where
  cooldown := some 45
  restrictions := []
  getChannel := fun _ => none
  friendly := "Discord"
  serviceId := "discord"
  httpStatus := 200
  incidents := []
  scheduled := []
  now := 0
  channelId := 1

/-- An invocation for which the status-page client answers HTTP 503. -/
def c9_ctx : StatusCtx where
  cooldown := none
  restrictions := []
  getChannel := fun _ => none
  friendly := "Zoom"
  serviceId := "zoom"
  httpStatus := 503
  incidents := [IncidentData.mk "A" "la" none []]
  scheduled := []
  now := 0
  channelId := 2

/-- An invocation with three live incidents and no gating. -/
def c3w_ctx : StatusCtx where
  cooldown := none
  restrictions := []
  getChannel := fun _ => none
  friendly := "Discord"
  serviceId := "discord"
  httpStatus := 200
  incidents := [IncidentData.mk "A" "la" none [], IncidentData.mk "B" "lb" none [],
    IncidentData.mk "C" "lc" none []]
  scheduled := []
  now := 0
  channelId := 9

/-! ### Helper lemmas -/

/-- The default shared-utility identifier survives the 7-character
truncation unchanged. -/
lemma unknown_take_seven : ("Unknown" : String).take 7 = "Unknown" := by decide

/-- The string sentinel is truthy as a Python value. -/
lemma py_truthy_unknown : py_truthy (.pystr "Unknown") = true := by decide

/-- Evaluation of `format_info` on the exception path: the sidecar read
and current-version parse succeed, the remote fetch raises, and the
result is the table built from the `"Unknown"` sentinel state plus a
warning log. -/
lemma format_info_fetch_error (commit qn ver pfx : String) (red cv : VersionInfo)
    (e : Unit) (extras : List (String × PyVal)) (loops : List (String × Bool))
    (hv : VersionInfo.from_str ver = some cv) :
    format_info (.ok (some commit)) red pfx qn ver (.error e) extras loops
      = .ok (build_format_result qn pfx
          (Vers.mk [(str_lower qn, cv)] (commit.take 7) red) (str_lower qn)
          "Unknown" "Unknown" "Unknown"
          (.pystr "Unknown") (.pystr "Unknown") (.pystr "Unknown")
          extras loops [(LogLevel.warning, "Unable to parse versions.")]) := by
  simp [format_info, _get_current_vers, hv]

/-- Evaluation of `format_info` on the success path: everything parses,
the fetch succeeds, and the cog name is present in the fetched dict. -/
lemma format_info_success (commit qn ver pfx : String) (red cv lv : VersionInfo)
    (latest : Vers) (extras : List (String × PyVal)) (loops : List (String × Bool))
    (hv : VersionInfo.from_str ver = some cv)
    (hl : List.lookup (str_lower qn) latest.cogs = some lv) :
    format_info (.ok (some commit)) red pfx qn ver (.ok latest) extras loops
      = .ok (build_format_result qn pfx
          (Vers.mk [(str_lower qn, cv)] (commit.take 7) red) (str_lower qn)
          (show_ver lv) latest.utils (show_ver latest.red)
          (.pybool (VersionInfo.le lv cv))
          (.pybool ((commit.take 7 : String) == latest.utils))
          (.pybool (VersionInfo.le latest.red red))
          extras loops []) := by
  simp [format_info, _get_current_vers, hv, reconcile, hl, List.lookup, show_ver_opt]

/-- When the cooldown tracker result is falsy and the restriction gate
does not fire, the command body continues past the gates. -/
lemma status_gates_passed (s : StatusCtx)
    (hc : cooldown_active s.cooldown = false)
    (hr : s.restrictions = [] ∨ restriction_channel_list s.restrictions s.getChannel = "") :
    status s = after_gates s := by
  unfold status
  rw [hc]
  rcases hr with h | h <;> simp [h]

/-- The dispatch path dispatches exactly one primary entry. -/
lemma count_dispatch_send_update_path (ch : Nat) (t : IncidentData)
    (oi os : List IncidentData) :
    count_dispatch (send_update_path ch t oi os) = 1 := by
  unfold send_update_path count_dispatch
  split <;> simp [List.countP_cons, List.countP_append, is_dispatch]

/-- The post-gate command body dispatches at most one primary entry. -/
lemma count_dispatch_after_gates (s : StatusCtx) :
    count_dispatch (after_gates s) ≤ 1 := by
  unfold after_gates count_dispatch
  simp only [List.countP_cons, is_dispatch, List.countP_nil, if_false,
    Nat.add_zero]
  split
  · simp [List.countP_cons, is_dispatch]
  · split
    · rename_i to_send rest heq
      exact Nat.le_of_eq (count_dispatch_send_update_path s.channelId to_send rest [])
    · split
      · rename_i to_send rest heq
        exact Nat.le_of_eq (count_dispatch_send_update_path s.channelId to_send [] rest)
      · simp [List.countP_cons, is_dispatch]

/-- The whole command dispatches at most one primary entry, on every
input. -/
lemma count_dispatch_status_le_one (s : StatusCtx) :
    count_dispatch (status s) ≤ 1 := by
  unfold status
  split
  · simp [count_dispatch, List.countP_cons, is_dispatch]
  · split
    · simp [count_dispatch, List.countP_cons, is_dispatch]
    · exact count_dispatch_after_gates s

/-- With remaining incidents present, the incidents summary text is
non-empty (so the summary reply is actually sent). -/
lemma summary_others_incidents_ne_empty (rest : List IncidentData) (h : rest ≠ []) :
    summary_others rest [] ≠ "" := by
  unfold summary_others
  simp only [h, if_false, if_true]
  intro hc
  have h2 := congrArg String.length hc
  simp only [String.length_append] at h2
  have hl : (" other incidents are live at the moment:\n" : String).length = 41 := by
    decide
  omega

/-- With remaining scheduled entries present, the scheduled summary text
is non-empty. -/
lemma summary_others_scheduled_ne_empty (rest : List IncidentData) (h : rest ≠ []) :
    summary_others [] rest ≠ "" := by
  unfold summary_others
  simp only [h, if_false, if_true]
  intro hc
  have h2 := congrArg String.length hc
  simp only [String.length_append] at h2
  have hl : ("\n" : String).length = 1 := by decide
  omega

/-! ### Claims -/

/-- Claim C1, counterexample: in an invocation where the sidecar read and
version parse succeed and the remote latest-versions fetch raises, the
function indeed does not raise, but the rendered status indicators of all
three axes are the green glyph — not the literal string "Unknown" as the
claim states.  The sentinel `"Unknown"` assigned to the three updated
variables is truthy, so `GREEN_CIRCLE if x else RED_CIRCLE` picks the
green glyph. -/
theorem c1_counterexample :
    (format_info (.ok (some "abcdef1234")) ⟨3, 5, 0⟩ "!" "MyCog" "1.0.0"
        (.error ()) [] []).map (fun r => r.rows.map InfoRow.indicator)
      = .ok [GREEN_CIRCLE, GREEN_CIRCLE, GREEN_CIRCLE]
    ∧ GREEN_CIRCLE ≠ "Unknown" := by decide

/-- Claim C1 (amended): whenever the current-versions computation
succeeds and the remote latest-versions fetch raises, `format_info` does
not raise; the latest-version column shows "Unknown" for all three axes,
a warning is logged, and no update instructions are appended — but the
status-indicator column renders the fixed green glyph for all three axes
(the truthy string sentinel), never the literal string "Unknown". -/
theorem c1_amended (commit qn ver pfx : String) (red cv : VersionInfo) (e : Unit)
    (hv : VersionInfo.from_str ver = some cv) :
    ∃ r, format_info (.ok (some commit)) red pfx qn ver (.error e) [] [] = .ok r
      ∧ r.rows.map InfoRow.indicator = [GREEN_CIRCLE, GREEN_CIRCLE, GREEN_CIRCLE]
      ∧ r.rows.map InfoRow.latest = ["Unknown", "Unknown", "Unknown"]
      ∧ r.updateMsg = "\n"
      ∧ r.logs = [(LogLevel.warning, "Unable to parse versions.")]
      ∧ GREEN_CIRCLE ≠ "Unknown" := by
  refine ⟨_, format_info_fetch_error commit qn ver pfx red cv e [] [] hv,
    ?_, ?_, ?_, ?_, ?_⟩
  · simp [build_format_result, up_indicator, py_truthy_unknown]
  · simp [build_format_result]
  · simp [build_format_result, py_truthy_unknown]
  · simp [build_format_result]
  · decide

/-- Claim C1, witness: the amended claim at a concrete invocation. -/
theorem c1_witness :
    VersionInfo.from_str "1.0.0" = some (VersionInfo.mk 1 0 0)
    ∧ ∃ r, format_info (.ok (some "abcdef1234")) (VersionInfo.mk 3 5 0) "!" "MyCog"
          "1.0.0" (.error ()) [] [] = .ok r
      ∧ r.rows.map InfoRow.indicator = [GREEN_CIRCLE, GREEN_CIRCLE, GREEN_CIRCLE]
      ∧ r.rows.map InfoRow.latest = ["Unknown", "Unknown", "Unknown"]
      ∧ r.updateMsg = "\n"
      ∧ r.logs = [(LogLevel.warning, "Unable to parse versions.")]
      ∧ GREEN_CIRCLE ≠ "Unknown" :=
  ⟨by decide, c1_amended "abcdef1234" "MyCog" "1.0.0" "!" ⟨3, 5, 0⟩ ⟨1, 0, 0⟩ () (by decide)⟩

/-- Claim C2 (confirmed): on the success path the reconciler computes
exactly three booleans — the plugin axis is up to date iff the current
cog version is at least the latest one under the semantic-version order,
the shared-utility axis iff the two truncated identifiers are equal as
strings, and the host axis iff the current Red version is at least the
latest; the rendered indicators are green exactly for the true axes.
Additionally, a successful `_get_latest_vers` always produces the
7-character truncation of the fetched `utils` value, so the compared
identifiers are the two 7-character prefixes. -/
theorem c2_reconciler (commit qn ver pfx : String) (red cv lv : VersionInfo)
    (latest : Vers)
    (hv : VersionInfo.from_str ver = some cv)
    (hl : List.lookup (str_lower qn) latest.cogs = some lv) :
    (∃ r, format_info (.ok (some commit)) red pfx qn ver (.ok latest) [] [] = .ok r
      ∧ r.rows.map InfoRow.indicator =
          [if VersionInfo.le lv cv then GREEN_CIRCLE else RED_CIRCLE,
           if (commit.take 7 : String) = latest.utils then GREEN_CIRCLE else RED_CIRCLE,
           if VersionInfo.le latest.red red then GREEN_CIRCLE else RED_CIRCLE])
    ∧ (∀ api pv v, _get_latest_vers api pv = .ok v →
        ∃ u, List.lookup "utils" api = some u ∧ v.utils = u.take 7) := by
  constructor
  · refine ⟨_, format_info_success commit qn ver pfx red cv lv latest [] [] hv hl, ?_⟩
    simp [build_format_result, up_indicator, py_truthy, beq_iff_eq]
  · intro api pv v h
    unfold _get_latest_vers at h
    split at h
    · exact absurd h (by simp)
    · rename_i u heq
      dsimp only [] at h
      split at h
      · injection h with h2
        exact ⟨u, heq, by rw [← h2]⟩
      · exact absurd h (by simp)

/-- Claim C2, witness: the reconciler at a concrete invocation (current
cog 1.0.0 against latest 1.2.0, differing utils identifiers, current Red
3.5.0 against latest 3.5.9). -/
theorem c2_witness :
    VersionInfo.from_str "1.0.0" = some (VersionInfo.mk 1 0 0)
    ∧ List.lookup (str_lower "MyCog")
        (Vers.mk [("mycog", VersionInfo.mk 1 2 0)] "abcdef1" (VersionInfo.mk 3 5 9)).cogs
        = some (VersionInfo.mk 1 2 0)
    ∧ ((∃ r, format_info (.ok (some "abcdef1234")) ⟨3, 5, 0⟩ "!" "MyCog" "1.0.0"
          (.ok (Vers.mk [("mycog", VersionInfo.mk 1 2 0)] "abcdef1"
            (VersionInfo.mk 3 5 9))) [] [] = .ok r
        ∧ r.rows.map InfoRow.indicator =
            [if VersionInfo.le ⟨1, 2, 0⟩ ⟨1, 0, 0⟩ then GREEN_CIRCLE else RED_CIRCLE,
             if (("abcdef1234" : String).take 7 : String)
                 = (Vers.mk [("mycog", VersionInfo.mk 1 2 0)] "abcdef1"
                     (VersionInfo.mk 3 5 9)).utils
               then GREEN_CIRCLE else RED_CIRCLE,
             if VersionInfo.le ⟨3, 5, 9⟩ ⟨3, 5, 0⟩ then GREEN_CIRCLE else RED_CIRCLE])
      ∧ (∀ api pv v, _get_latest_vers api pv = .ok v →
          ∃ u, List.lookup "utils" api = some u ∧ v.utils = u.take 7)) :=
  ⟨by decide, by decide,
    c2_reconciler "abcdef1234" "MyCog" "1.0.0" "!" ⟨3, 5, 0⟩ ⟨1, 0, 0⟩ ⟨1, 2, 0⟩ _
      (by decide) (by decide)⟩

/-- Claim C3 (confirmed): once the selection step is reached (cooldown
falsy, restriction gate not firing, HTTP 200), the command dispatches the
first active incident (and no scheduled entry) as the sole primary when
any active incident exists, summarizing the rest as a count with one
title+link line each; otherwise the first filtered scheduled entry, same
treatment; otherwise it sends exactly the fixed no-live-incidents
confirmation and performs no dispatch.  The summary reply is sent iff
there are remaining entries, and on every input whatsoever at most one
entry is ever dispatched as primary. -/
theorem c3_selection_policy (s : StatusCtx)
    (hc : cooldown_active s.cooldown = false)
    (hr : s.restrictions = [] ∨ restriction_channel_list s.restrictions s.getChannel = "")
    (h200 : s.httpStatus = 200) :
    (∀ t rest, s.incidents = t :: rest →
      status s = [Effect.typing, Effect.fetch s.serviceId,
          Effect.dispatch (t, t.fields) s.channelId, Effect.sleep]
        ++ (if summary_others rest [] = "" then []
            else [Effect.send (summary_others rest []) none]))
    ∧ (∀ t rest, s.incidents = [] → scheduled_live s.now s.scheduled = t :: rest →
      status s = [Effect.typing, Effect.fetch s.serviceId,
          Effect.dispatch (t, t.fields) s.channelId, Effect.sleep]
        ++ (if summary_others [] rest = "" then []
            else [Effect.send (summary_others [] rest) none]))
    ∧ (s.incidents = [] → scheduled_live s.now s.scheduled = [] →
      status s = [Effect.typing, Effect.fetch s.serviceId,
          Effect.send "✅ There are currently no live incidents." none]
        ∧ count_dispatch (status s) = 0)
    ∧ summary_others [] [] = ""
    ∧ (∀ rest : List IncidentData, rest ≠ [] → summary_others rest [] ≠ "")
    ∧ (∀ rest : List IncidentData, rest ≠ [] → summary_others [] rest ≠ "")
    ∧ (∀ s2 : StatusCtx, count_dispatch (status s2) ≤ 1) := by
  have hgates := status_gates_passed s hc hr
  refine ⟨?_, ?_, ?_, rfl, summary_others_incidents_ne_empty,
    summary_others_scheduled_ne_empty, count_dispatch_status_le_one⟩
  · intro t rest h
    rw [hgates]
    unfold after_gates send_update_path
    simp [h200, h]
  · intro t rest h hsch
    rw [hgates]
    unfold after_gates send_update_path
    simp [h200, h, hsch]
  · intro h hsch
    have heq : status s = [Effect.typing, Effect.fetch s.serviceId,
        Effect.send "✅ There are currently no live incidents." none] := by
      rw [hgates]
      unfold after_gates
      simp [h200, h, hsch]
    refine ⟨heq, ?_⟩
    rw [heq]
    simp [count_dispatch, List.countP_cons, is_dispatch]

/-- Claim C3, witness: three live incidents — the first is dispatched,
the other two are summarized with their titles and links. -/
theorem c3_witness :
    status c3w_ctx = [Effect.typing, Effect.fetch "discord",
        Effect.dispatch (⟨"A", "la", none, []⟩, []) 9, Effect.sleep,
        Effect.send "2 other incidents are live at the moment:\nB (<lb>)\nC (<lc>)\n" none]
    ∧ count_dispatch (status c3w_ctx) ≤ 1 := by
  have h := c3_selection_policy c3w_ctx rfl (Or.inl rfl) rfl
  exact ⟨(h.1 ⟨"A", "la", none, []⟩ [⟨"B", "lb", none, []⟩, ⟨"C", "lc", none, []⟩]
      rfl).trans (by decide),
    h.2.2.2.2.2.2 c3w_ctx⟩

/-- Claim C4, counterexample: a missing or malformed sidecar file during
the version-check display path is NOT caught — `_get_current_vers` runs
before the `try` block, so `format_info` raises even though the remote
fetch would have succeeded.  This refutes the claim that every failure in
the display path, including a missing sidecar, is caught and replaced
with the "Unknown" sentinel. -/
theorem c4_counterexample :
    format_info (.error ()) ⟨3, 5, 0⟩ "!" "MyCog" "1.0.0"
      (.ok (Vers.mk [("mycog", VersionInfo.mk 1 0 0)] "abcdef1" (VersionInfo.mk 3 5 0)))
      [] [] = .error () := rfl

/-- Claim C4 (amended): failures of the remote fetch (and of the
comparisons inside the `try`) are caught, logged at warning level and
replaced with the "Unknown" sentinel; but failures while computing the
current versions — a missing or malformed sidecar file, or an
unparseable current-version string — occur before the `try` block and
propagate to the caller. -/
theorem c4_amended (red : VersionInfo) (pfx qn : String) :
    (∀ (commit ver : String) (cv : VersionInfo) (e : Unit)
        (extras : List (String × PyVal)) (loops : List (String × Bool)),
      VersionInfo.from_str ver = some cv →
      ∃ r, format_info (.ok (some commit)) red pfx qn ver (.error e) extras loops = .ok r
        ∧ r.logs = [(LogLevel.warning, "Unable to parse versions.")]
        ∧ r.rows.map InfoRow.latest = ["Unknown", "Unknown", "Unknown"])
    ∧ (∀ (ver : String) (fetch : Except Unit Vers)
        (extras : List (String × PyVal)) (loops : List (String × Bool)),
      format_info (.error ()) red pfx qn ver fetch extras loops = .error ())
    ∧ (∀ (sc : Except Unit (Option String)) (ver : String) (fetch : Except Unit Vers)
        (extras : List (String × PyVal)) (loops : List (String × Bool)),
      VersionInfo.from_str ver = none →
      format_info sc red pfx qn ver fetch extras loops = .error ()) := by
  refine ⟨?_, ?_, ?_⟩
  · intro commit ver cv e extras loops hv
    refine ⟨_, format_info_fetch_error commit qn ver pfx red cv e extras loops hv,
      ?_, ?_⟩
    · simp [build_format_result]
    · simp [build_format_result]
  · intro ver fetch extras loops
    rfl
  · intro sc ver fetch extras loops hv
    rcases sc with e | field
    · rfl
    · simp [format_info, _get_current_vers, hv]

/-- Claim C4, witness: the amended claim at concrete invocations — a
caught fetch failure replaced by the sentinel, and a propagating failure
of the current-versions computation. -/
theorem c4_witness :
    VersionInfo.from_str "1.0.0" = some (VersionInfo.mk 1 0 0)
    ∧ (∃ r, format_info (.ok (some "abcdef1234")) ⟨3, 5, 0⟩ "!" "MyCog" "1.0.0"
          (.error ()) [] [] = .ok r
        ∧ r.logs = [(LogLevel.warning, "Unable to parse versions.")]
        ∧ r.rows.map InfoRow.latest = ["Unknown", "Unknown", "Unknown"])
    ∧ format_info (.error ()) ⟨3, 5, 0⟩ "!" "MyCog" "garbage"
        (.ok (Vers.mk [] "x" (VersionInfo.mk 0 0 0))) [] [] = .error () :=
  ⟨by decide,
    (c4_amended ⟨3, 5, 0⟩ "!" "MyCog").1 "abcdef1234" "1.0.0" ⟨1, 0, 0⟩ () [] []
      (by decide),
    (c4_amended ⟨3, 5, 0⟩ "!" "MyCog").2.1 "garbage" _ [] []⟩

/-- Claim C5, counterexample: the invoking channel (id 5) IS among the
permitted channels of the configured restriction, yet the command still
replies with the permitted-channel list and stops — no fetch, no
dispatch.  The source never compares the invoking channel against the
restriction list, refuting the claim that the command proceeds when the
channel is permitted. -/
theorem c5_counterexample :
    c5_ctx.channelId ∈ c5_ctx.restrictions
    ∧ status c5_ctx = [Effect.send "You can check updates for Discord in <#5>." none]
    ∧ (∀ e ∈ status c5_ctx, is_fetch e = false ∧ is_dispatch e = false) := by decide

/-- Claim C5 (amended): when the guild has configured restrictions for
the service and at least one restricted channel resolves to a text
channel (non-empty humanized list), the command replies listing the
permitted channels and stops — regardless of whether the invoking
channel is among them; it proceeds past the gate exactly when no
restrictions are configured or none resolve to a listable text
channel. -/
theorem c5_restriction_gate (s : StatusCtx)
    (hc : cooldown_active s.cooldown = false) :
    (s.restrictions ≠ [] →
      restriction_channel_list s.restrictions s.getChannel ≠ "" →
      status s = [Effect.send ("You can check updates for " ++ s.friendly ++ " in "
        ++ restriction_channel_list s.restrictions s.getChannel ++ ".") none])
    ∧ ((s.restrictions = [] ∨ restriction_channel_list s.restrictions s.getChannel = "") →
      status s = after_gates s) := by
  constructor
  · intro h1 h2
    unfold status
    rw [hc]
    simp [h1, h2]
  · exact status_gates_passed s hc

/-- Claim C5, witness: the gate stops one concrete invocation and lets
another (with no resolvable restricted channel) continue. -/
theorem c5_witness :
    status c5_ctx = [Effect.send ("You can check updates for " ++ c5_ctx.friendly
        ++ " in " ++ restriction_channel_list c5_ctx.restrictions c5_ctx.getChannel
        ++ ".") none]
    ∧ status c5_pass_ctx = after_gates c5_pass_ctx :=
  ⟨(c5_restriction_gate c5_ctx rfl).1 (by decide) (by decide),
    (c5_restriction_gate c5_pass_ctx rfl).2 (Or.inr (by decide))⟩

/-- Claim C6 (confirmed): the background freshness check returns a single
log line on every input (it never propagates an exception); the line is
at warning level iff the fetch succeeded, the current version parsed, the
cog name was found, and the current version is strictly older than the
latest — and in that case the message names the plugin; any fetch
failure yields the debug-level went-wrong line, and every outcome is
warning or debug. -/
theorem c6_background_check (fetch : Except Unit Vers) (cogname currentver : String) :
    ((out_of_date_check fetch cogname currentver).1 = LogLevel.warning ↔
      ∃ vers cv lv, fetch = .ok vers
        ∧ VersionInfo.from_str currentver = some cv
        ∧ List.lookup cogname vers.cogs = some lv
        ∧ VersionInfo.lt cv lv = true)
    ∧ (∀ e : Unit, fetch = .error e →
        out_of_date_check fetch cogname currentver
          = (LogLevel.debug, "Something went wrong checking if " ++ cogname
              ++ " cog is up to date. See below."))
    ∧ ((out_of_date_check fetch cogname currentver).1 = LogLevel.warning →
        ∃ pre post, (out_of_date_check fetch cogname currentver).2
          = pre ++ (cogname ++ post))
    ∧ ((out_of_date_check fetch cogname currentver).1 = LogLevel.warning
        ∨ (out_of_date_check fetch cogname currentver).1 = LogLevel.debug) := by
  rcases fetch with e | vers
  · refine ⟨?_, ?_, ?_, ?_⟩
    · simp [out_of_date_check]
    · intro e _
      rfl
    · intro h
      exact absurd h (by simp [out_of_date_check])
    · right
      rfl
  · have hne : ∀ e : Unit, (Except.ok vers : Except Unit Vers) = .error e → False := by
      intro e h
      cases h
    rcases hv : VersionInfo.from_str currentver with _ | cv
    · refine ⟨?_, fun e h => absurd h (hne e), ?_, ?_⟩
      · simp [out_of_date_check, hv]
      · intro h
        exact absurd h (by simp [out_of_date_check, hv])
      · right
        simp [out_of_date_check, hv]
    · rcases hl : List.lookup cogname vers.cogs with _ | lv
      · refine ⟨?_, fun e h => absurd h (hne e), ?_, ?_⟩
        · simp [out_of_date_check, hv, hl]
        · intro h
          exact absurd h (by simp [out_of_date_check, hv, hl])
        · right
          simp [out_of_date_check, hv, hl]
      · by_cases hcmp : VersionInfo.lt cv lv = true
        · refine ⟨?_, fun e h => absurd h (hne e), ?_, ?_⟩
          · simp [out_of_date_check, hv, hl, hcmp]
          · intro _
            refine ⟨"Your ", " cog, from Vex, is out of date. "
              ++ "You can update your cogs with the cog update command in Discord.", ?_⟩
            simp [out_of_date_check, hv, hl, hcmp, String.append_assoc]
          · left
            simp [out_of_date_check, hv, hl, hcmp]
        · refine ⟨?_, fun e h => absurd h (hne e), ?_, ?_⟩
          · simp [out_of_date_check, hv, hl, hcmp]
          · intro h
            exact absurd h (by simp [out_of_date_check, hv, hl, hcmp])
          · right
            simp [out_of_date_check, hv, hl, hcmp]

/-- Claim C6, witness: a concrete stale cog (1.0.0 against fetched
1.2.0) is reported at warning level. -/
theorem c6_witness :
    (out_of_date_check (.ok (Vers.mk [("mycog", VersionInfo.mk 1 2 0)] "abcdef1"
        (VersionInfo.mk 3 5 0))) "mycog" "1.0.0").1 = LogLevel.warning :=
  (c6_background_check _ "mycog" "1.0.0").1.mpr
    ⟨_, ⟨1, 0, 0⟩, ⟨1, 2, 0⟩, rfl, by decide, by decide, by decide⟩

/-- Claim C7 (confirmed): the scheduled-maintenance list used for
selection is exactly the filter of the parsed scheduled entries to those
whose scheduled-start timestamp exists and is strictly earlier than the
current time; entries with a future (or absent) scheduled-start are
excluded. -/
theorem c7_scheduled_filter (now : Int) (l : List IncidentData) :
    (∀ i, i ∈ scheduled_live now l ↔ (i ∈ l ∧ ∃ t, i.scheduled_for = some t ∧ t < now))
    ∧ (∀ i t, i ∈ l → i.scheduled_for = some t → now ≤ t → i ∉ scheduled_live now l)
    ∧ (∀ i, i ∈ l → i.scheduled_for = none → i ∉ scheduled_live now l)
    ∧ scheduled_live now l
        = l.filter (fun i => i.scheduled_for.any (fun t => decide (t < now))) := by
  have hiff : ∀ i, i ∈ scheduled_live now l
      ↔ (i ∈ l ∧ ∃ t, i.scheduled_for = some t ∧ t < now) := by
    intro i
    unfold scheduled_live
    rw [List.mem_filter]
    constructor
    · rintro ⟨hi, hp⟩
      refine ⟨hi, ?_⟩
      rcases hsf : i.scheduled_for with _ | t
      · rw [hsf] at hp
        simp [Option.any] at hp
      · rw [hsf] at hp
        simp only [Option.any, decide_eq_true_eq] at hp
        exact ⟨t, rfl, hp⟩
    · rintro ⟨hi, t, hsf, ht⟩
      refine ⟨hi, ?_⟩
      simp [hsf, Option.any, ht]
  refine ⟨hiff, ?_, ?_, rfl⟩
  · intro i t hi hsf ht hmem
    rcases (hiff i).mp hmem with ⟨_, t2, hsf2, ht2⟩
    rw [hsf] at hsf2
    cases hsf2
    omega
  · intro i hi hsf hmem
    rcases (hiff i).mp hmem with ⟨_, t2, hsf2, _⟩
    rw [hsf] at hsf2
    cases hsf2

/-- Claim C7, witness: at time 10, an entry started at 5 is kept while a
future entry (20) and an entry without a timestamp are excluded. -/
theorem c7_witness :
    scheduled_live 10 [c7w_past, c7w_future, c7w_none] = [c7w_past]
    ∧ c7w_future ∉ scheduled_live 10 [c7w_past, c7w_future, c7w_none]
    ∧ c7w_none ∉ scheduled_live 10 [c7w_past, c7w_future, c7w_none] :=
  ⟨by decide,
    (c7_scheduled_filter 10 [c7w_past, c7w_future, c7w_none]).2.1 c7w_future 20
      (by decide) (by decide) (by decide),
    (c7_scheduled_filter 10 [c7w_past, c7w_future, c7w_none]).2.2.1 c7w_none
      (by decide) (by decide)⟩

/-- Claim C8 (confirmed): when the cooldown tracker returns a positive
remaining time, the command replies with the cooldown notice carrying the
humanized remaining duration (and a matching delete-after) and stops; the
trace contains no status-page fetch and no dispatch. -/
theorem c8_cooldown_gate (s : StatusCtx) (t : Nat)
    (hc : s.cooldown = some t) (ht : 0 < t) :
    status s = [Effect.send ("Status updates for " ++ s.friendly
        ++ " are on cooldown. Try again in " ++ humanize_timedelta t ++ ".") (some t)]
    ∧ (∀ e ∈ status s, is_fetch e = false ∧ is_dispatch e = false) := by
  have htne : t ≠ 0 := Nat.pos_iff_ne_zero.mp ht
  have heq : status s = [Effect.send ("Status updates for " ++ s.friendly
      ++ " are on cooldown. Try again in " ++ humanize_timedelta t ++ ".") (some t)] := by
    unfold status
    rw [hc]
    simp [cooldown_active, htne]
  refine ⟨heq, ?_⟩
  intro e he
  rw [heq] at he
  simp at he
  subst he
  exact ⟨rfl, rfl⟩

/-- Claim C8, witness: a 45-second cooldown yields exactly the cooldown
reply with the humanized duration, and no fetch occurs. -/
theorem c8_witness :
    status c8_ctx = [Effect.send
        "Status updates for Discord are on cooldown. Try again in 45 seconds." (some 45)]
    ∧ (∀ e ∈ status c8_ctx, is_fetch e = false) := by
  have h := c8_cooldown_gate c8_ctx 45 rfl (by decide)
  exact ⟨h.1.trans (by decide), fun e he => (h.2 e he).1⟩

/-- Claim C9 (confirmed): when the status-page client answers with a
status other than 200, the command replies with the apology message and
stops — the trace is exactly typing, fetch, apology, with no dispatch
(and hence no selection or payload use). -/
theorem c9_non_200 (s : StatusCtx)
    (hc : cooldown_active s.cooldown = false)
    (hr : s.restrictions = [] ∨ restriction_channel_list s.restrictions s.getChannel = "")
    (hs : s.httpStatus ≠ 200) :
    status s = [Effect.typing, Effect.fetch s.serviceId,
        Effect.send ("Hmm, I can\x27t get " ++ s.friendly
          ++ "\x27s status at the moment.") none]
    ∧ count_dispatch (status s) = 0 := by
  have heq : status s = [Effect.typing, Effect.fetch s.serviceId,
      Effect.send ("Hmm, I can\x27t get " ++ s.friendly
        ++ "\x27s status at the moment.") none] := by
    rw [status_gates_passed s hc hr]
    unfold after_gates
    simp [hs]
  refine ⟨heq, ?_⟩
  rw [heq]
  simp [count_dispatch, List.countP_cons, is_dispatch]

/-- Claim C9, witness: an HTTP 503 answer yields exactly the apology
reply and no dispatch, even though an incident was present in the
payload. -/
theorem c9_witness :
    status c9_ctx = [Effect.typing, Effect.fetch "zoom",
        Effect.send "Hmm, I can\x27t get Zoom\x27s status at the moment." none]
    ∧ count_dispatch (status c9_ctx) = 0 := by
  have h := c9_non_200 c9_ctx rfl (Or.inl rfl) (by decide)
  exact ⟨h.1.trans (by decide), h.2⟩

/-- Claim C10, counterexample: with a sidecar that exists and is valid
JSON but lacks the `latest_commit` key, the function can still raise —
the caller-supplied current-version string is parsed by
`VersionInfo.from_str` inside the same function, and an unparseable
string makes it raise.  This refutes the clause that only a missing or
malformed sidecar file raises. -/
theorem c10_counterexample :
    VersionInfo.from_str "garbage" = none
    ∧ _get_current_vers (.ok none) ⟨3, 5, 13⟩ "garbage" "MyCog" = .error () := by decide

/-- Claim C10 (amended): with a sidecar that exists and is valid JSON but
lacks the `latest_commit` key, and a current-version string that parses,
the function does not raise and the shared-utility identifier is the
literal string "Unknown" (the default truncated to 7 characters, which
leaves it unchanged); it raises exactly when the sidecar is missing or
malformed, or the current-version string fails to parse. -/
theorem c10_amended (red : VersionInfo) (qn : String) :
    (∀ (ver : String) (cv : VersionInfo), VersionInfo.from_str ver = some cv →
      _get_current_vers (.ok none) red ver qn
        = .ok (Vers.mk [(str_lower qn, cv)] "Unknown" red))
    ∧ (∀ (sc : Except Unit (Option String)) (ver : String),
      _get_current_vers sc red ver qn = .error ()
        ↔ (sc = .error () ∨ VersionInfo.from_str ver = none)) := by
  constructor
  · intro ver cv hv
    simp [_get_current_vers, hv, unknown_take_seven]
  · intro sc ver
    rcases sc with e | field
    · simp [_get_current_vers]
    · rcases hv : VersionInfo.from_str ver with _ | cv <;>
        simp [_get_current_vers, hv]

/-- Claim C10, witness: the amended claim at a concrete call — the
sidecar lacks the key, the version parses, and the utils identifier is
the literal "Unknown". -/
theorem c10_witness :
    VersionInfo.from_str "1.0.0" = some (VersionInfo.mk 1 0 0)
    ∧ _get_current_vers (.ok none) ⟨3, 5, 13⟩ "1.0.0" "MyCog"
        = .ok (Vers.mk [("mycog", VersionInfo.mk 1 0 0)] "Unknown" ⟨3, 5, 13⟩) :=
  ⟨by decide, by
    have h := (c10_amended ⟨3, 5, 13⟩ "MyCog").1 "1.0.0" ⟨1, 0, 0⟩ (by decide)
    exact h.trans (by rfl)⟩
